import Mathlib

/-!
Verification of the Adafruit IO REST client (`src/adafruit_io.py`) against its
natural-language specification.

The Python module defines a single class `Client` that composes URL paths,
attaches authentication headers, serializes payloads, and dispatches
GET/POST/DELETE requests through an injected transport object (the
"wifi manager").  Everything below is a shallow embedding of that class:
Python strings become Lean `String`s (the `bytes(s, "utf-8")` wrappers used
for header names and values are dropped: all those strings are ASCII, so the
encoding is a bijection), Python dicts become association lists, the injected
transport becomes a function from requests to parsed response bodies, and the
side effects of an operation are made explicit as a trace of events (requests
issued, responses closed).
-/

/-- A scalar value as it appears in the JSON payloads of the client:
Python `None`, booleans, integers and strings.  `value` fields are passed
through the client unmodified, so this type only needs to be rich enough to
distinguish concrete test values. -/
inductive PyVal where
  | none
  | bool (b : Bool)
  | int (n : Int)
  | str (s : String)
deriving Repr, DecidableEq

/-- HTTP methods used by the client. -/
inductive Method where
  | GET
  | POST
  | DELETE
deriving Repr, DecidableEq

/-- One HTTP request as handed to the transport collaborator: the method
implied by which transport function is called, the fully composed path, the
optional JSON body (`json = packet` keyword of `wifi.post`; association list
for the Python dict), and the headers dict. -/
structure Request where
  method : Method
  path : String
  jsonBody : Option (List (String × PyVal))
  headers : List (String × String)
deriving Repr, DecidableEq

/-- The injected transport ("wifi manager").  `respond r` is the parsed JSON
body that `response.json()` yields for request `r`; the `Response` object of
the Python API is modelled by this parsed body together with trace events. -/
structure Transport where
  respond : Request → PyVal

/-- An observable side effect of an operation: a request was issued to the
transport, or `response.close()` was executed on the response to a request. -/
inductive Event where
  | issued (r : Request)
  | closed (r : Request)
deriving Repr, DecidableEq

/-- `Event.isClose e` is true exactly on `closed` events. -/
def Event.isClose : Event → Bool
  | .closed _ => true
  | _ => false

/-- The fields stored by `Client.__init__`, in the order they are assigned:
`self.api_version`, `self.url`, `self.username`, `self.key`, `self.wifi`. -/
structure Client where
  api_version : String
  url : String
  username : String
  key : String
  wifi : Transport

/-- `self.http_headers`, computed in `__init__` as a pure function of the
key: a list of two header dicts, `http_headers[0]` carrying the AIO key and
the JSON content type, `http_headers[1]` carrying the AIO key only. -/
def Client.http_headers (c : Client) : List (List (String × String)) :=
  [[("X-AIO-KEY", c.key), ("Content-Type", "application/json")],
   [("X-AIO-KEY", c.key)]]

/-- `Client.__init__(username, key, wifi_manager, api_version)`.  The Python
code stores `api_version`, the fixed literal URL, `username` and `key`, then
checks `if wifi_manager:` and raises `TypeError` when the wifi manager is
absent (`None` is the only falsy value a transport argument can take, so the
argument is modelled as an `Option Transport`).  No request is issued. -/
def Client.init (username key : String) (wifi_manager : Option Transport)
    (api_version : String) : Except String Client :=
  match wifi_manager with
  | some w =>
      Except.ok
        { api_version := api_version
          url := "https://io.adafruit.com/api"
          username := username
          key := key
          wifi := w }
  | none => Except.error "This library requires a WiFiManager object."

/-- `Client.__init__` with the `api_version` parameter omitted: the Python
default is `api_version='v2'`. -/
def Client.initDefault (username key : String)
    (wifi_manager : Option Transport) : Except String Client :=
  Client.init username key wifi_manager "v2"

/-- `_compose_path(self, path)`:
`"{0}/{1}/{2}/{3}".format(self.url, self.api_version, self.username, path)`. -/
def Client._compose_path (c : Client) (path : String) : String :=
  c.url ++ "/" ++ c.api_version ++ "/" ++ c.username ++ "/" ++ path

/-- `_create_data(self, data, latitude, longitude, elevation, timestamp)`:
the payload dict with keys value, lat, lon, ele, created_at. -/
def Client._create_data (data latitude longitude elevation timestamp : PyVal) :
    List (String × PyVal) :=
  [("value", data), ("lat", latitude), ("lon", longitude),
   ("ele", elevation), ("created_at", timestamp)]

/-- `_post(self, path, packet)`: calls `self.wifi.post(path, json=packet,
headers=self.http_headers[0])` and returns `response.json()`.  The source
places `response.close()` on the line after the `return` statement, so the
close never executes: the trace records the issued request and no `closed`
event. -/
def Client._post (c : Client) (path : String)
    (packet : List (String × PyVal)) : PyVal × List Event :=
  let req : Request :=
    { method := Method.POST, path := path, jsonBody := some packet,
      headers := c.http_headers[0]! }
  (c.wifi.respond req, [Event.issued req])

/-- `_get(self, path)`: calls `self.wifi.get(path,
headers=self.http_headers[1])` and returns `response.json()`.  As in `_post`,
`response.close()` follows the `return` and is unreachable. -/
def Client._get (c : Client) (path : String) : PyVal × List Event :=
  let req : Request :=
    { method := Method.GET, path := path, jsonBody := Option.none,
      headers := c.http_headers[1]! }
  (c.wifi.respond req, [Event.issued req])

/-- `_delete(self, path)`: the source line reads
`headers = \x7bself.http_headers[0])`, a malformed expression (an opening
brace never closed, mismatched with a parenthesis) that names
`self.http_headers[0]` - the header dict that carries both the AIO key and
the JSON content type.  The embedding takes the evidently referenced header
set `http_headers[0]`.  As in `_post` and `_get`, `response.close()` follows
the `return` and is unreachable. -/
def Client._delete (c : Client) (path : String) : PyVal × List Event :=
  let req : Request :=
    { method := Method.DELETE, path := path, jsonBody := Option.none,
      headers := c.http_headers[0]! }
  (c.wifi.respond req, [Event.issued req])

/-- `send_data(self, feed, data, lat=None, lon=None, ele=None,
created_at=None)`: composes `feeds/{feed}/data`, builds the packet with
`_create_data`, and calls `self._post(path, packet)` WITHOUT returning its
result - the Python function falls off the end and returns `None`. -/
def Client.send_data (c : Client) (feed : String)
    (data lat lon ele created_at : PyVal) : PyVal × List Event :=
  let path := c._compose_path ("feeds/" ++ feed ++ "/data")
  let packet := Client._create_data data lat lon ele created_at
  let r := c._post path packet
  (PyVal.none, r.2)

/-- `send_data` with the four optional arguments omitted: the Python defaults
are `lat=None, lon=None, ele=None, created_at=None`. -/
def Client.send_data_defaults (c : Client) (feed : String) (data : PyVal) :
    PyVal × List Event :=
  c.send_data feed data PyVal.none PyVal.none PyVal.none PyVal.none

/-- `receive_data(self, feed)`: composes `feeds/{feed}/data/last` and returns
`self._get(path)`. -/
def Client.receive_data (c : Client) (feed : String) : PyVal × List Event :=
  let path := c._compose_path ("feeds/" ++ feed ++ "/data/last")
  c._get path

/-- `delete_data(self, feed_key, data_id)`: the source composes the relative
path with `"feeds/\x7b0\x7d/data\x7b0\x7d".format(feed_key, data_id)` - both
placeholders select argument 0, so the result is
`feeds/<feed_key>/data<feed_key>` and `data_id` is never used - then returns
`self._delete(path)`. -/
def Client.delete_data (c : Client) (feed_key data_id : String) :
    PyVal × List Event :=
  let path := c._compose_path ("feeds/" ++ feed_key ++ "/data" ++ feed_key)
  c._delete path

/-- `get_all_groups(self)`: GET on the composed path `groups`. -/
def Client.get_all_groups (c : Client) : PyVal × List Event :=
  c._get (c._compose_path "groups")

/-- `create_new_group(self, group_name, group_description)`: POST on the
composed path `groups` with packet name/description. -/
def Client.create_new_group (c : Client) (group_name group_description : String) :
    PyVal × List Event :=
  c._post (c._compose_path "groups")
    [("name", PyVal.str group_name), ("description", PyVal.str group_description)]

/-- `get_feed(self, key)`: GET on the composed path `feeds/{key}`. -/
def Client.get_feed (c : Client) (key : String) : PyVal × List Event :=
  c._get (c._compose_path ("feeds/" ++ key))

/-- `get_all_feeds(self)`: GET on the composed path `feeds`. -/
def Client.get_all_feeds (c : Client) : PyVal × List Event :=
  c._get (c._compose_path "feeds")

/-- `delete_feed(self, feed)`: DELETE on the composed path `feeds/{feed}`. -/
def Client.delete_feed (c : Client) (feed : String) : PyVal × List Event :=
  c._delete (c._compose_path ("feeds/" ++ feed))

/-- A transport whose every response parses to `None`; used for concrete
evaluations. -/
def tNone : Transport := ⟨fun _ => PyVal.none⟩

/-- A transport whose every response parses to the string "ok"; used to make
response bodies observable in concrete evaluations. -/
def tOk : Transport := ⟨fun _ => PyVal.str "ok"⟩

/-- The client of the specification example: `Client("alice", "k123", fake)`
with the default api version, backed by the all-None transport. -/
def alice : Client :=
  ⟨"v2", "https://io.adafruit.com/api", "alice", "k123", tNone⟩

/-- Same credentials, backed by the transport that answers "ok". -/
def aliceOk : Client :=
  ⟨"v2", "https://io.adafruit.com/api", "alice", "k123", tOk⟩

/-- Helper: the well-formed DELETE path the specification requires for
`delete_data` - `feeds/<feed_key>/data/<data_id>` with both arguments as
distinct path segments.  Modelled from the spec, for comparison with the
path the source actually composes. -/
def spec_delete_data_rel_path (feed_key data_id : String) : String :=
  "feeds/" ++ feed_key ++ "/data/" ++ data_id

/-- C1: evaluation of `delete_data` at feed_key "temperature" and data_id
"42" on the specification's example client.  The single DELETE issued goes to
`.../feeds/temperature/datatemperature`: `data_id` is absent, the feed key is
duplicated without a separating slash, and the path differs from the
`feeds/{feed_key}/data/{data_id}` path the claim requires. -/
theorem C1_delete_data_eval :
    (alice.delete_data "temperature" "42").2 =
      [Event.issued
        ⟨Method.DELETE,
         "https://io.adafruit.com/api/v2/alice/feeds/temperature/datatemperature",
         Option.none,
         [("X-AIO-KEY", "k123"), ("Content-Type", "application/json")]⟩]
    ∧ alice._compose_path ("feeds/" ++ "temperature" ++ "/data" ++ "temperature")
        ≠ alice._compose_path (spec_delete_data_rel_path "temperature" "42") := by
  constructor
  · rfl
  · decide

/-- C2: for every client constructed with username `u`, key `k` and api
version `av`, and every non-empty relative path `p`, `_compose_path p` is the
base URL, the api version, the username and `p` joined by single slashes. -/
theorem C2_compose_path (u k av p : String) (w : Transport) (hp : p ≠ "") :
    (Client.init u k (some w) av).map (fun c => c._compose_path p) =
      Except.ok ("https://io.adafruit.com/api" ++ "/" ++ av ++ "/" ++ u ++ "/" ++ p) :=
  rfl

/-- Witness for C2 at u = "alice", k = "k123", av = "v2", p = "feeds". -/
theorem C2_compose_path_witness :
    ("feeds" : String) ≠ "" ∧
      (Client.init "alice" "k123" (some tNone) "v2").map
          (fun c => c._compose_path "feeds") =
        Except.ok ("https://io.adafruit.com/api" ++ "/" ++ "v2" ++ "/" ++ "alice" ++ "/" ++ "feeds") :=
  ⟨by decide, C2_compose_path "alice" "k123" "v2" "feeds" tNone (by decide)⟩

/-- C3: for every client, feed key and value, `send_data` with the optional
fields omitted issues exactly one request: a POST to the composed path
`feeds/{feed}/data`, with body value/lat/lon/ele/created_at where the four
optional fields are null, and with headers carrying `X-AIO-KEY: <key>`
(together with the JSON content type). -/
theorem C3_send_data (c : Client) (feed : String) (data : PyVal) :
    (c.send_data_defaults feed data).2 =
      [Event.issued
        ⟨Method.POST,
         c._compose_path ("feeds/" ++ feed ++ "/data"),
         some [("value", data), ("lat", PyVal.none), ("lon", PyVal.none),
               ("ele", PyVal.none), ("created_at", PyVal.none)],
         [("X-AIO-KEY", c.key), ("Content-Type", "application/json")]⟩] :=
  rfl

/-- C4: evaluation of the three HTTP primitives on the example client at path
"p".  `_get` sends auth-only headers and `_post` sends auth plus content
type, as the claim states; but the request issued by `_delete` carries
`Content-Type: application/json` as well (its malformed header expression
names `http_headers[0]`), so the content-type header is NOT sent only on
POST and the DELETE headers are NOT auth-only. -/
theorem C4_headers_eval :
    (alice._get "p").2 =
      [Event.issued ⟨Method.GET, "p", Option.none, [("X-AIO-KEY", "k123")]⟩]
    ∧ (alice._post "p" []).2 =
      [Event.issued ⟨Method.POST, "p", some [],
        [("X-AIO-KEY", "k123"), ("Content-Type", "application/json")]⟩]
    ∧ (alice._delete "p").2 =
      [Event.issued ⟨Method.DELETE, "p", Option.none,
        [("X-AIO-KEY", "k123"), ("Content-Type", "application/json")]⟩]
    ∧ (alice._delete "p").2 ≠
      [Event.issued ⟨Method.DELETE, "p", Option.none, [("X-AIO-KEY", "k123")]⟩] := by
  refine ⟨rfl, rfl, rfl, ?_⟩
  decide

/-- C5 counterexample: the claim says construction fails when the credentials
are missing/invalid; but `Client.init` with EMPTY username and EMPTY key and
a present transport succeeds - the constructor never inspects the
credentials. -/
theorem C5_init_counterexample :
    (Client.init "" "" (some tNone) "v2").isOk = true := rfl

/-- C5 as amended: construction fails (the Python code raises `TypeError`) if
and only if the transport handle is absent - for every username and key,
including empty ones - and when it succeeds it only stores the fields
(api_version, the fixed url, username, key, the transport); `initDefault`
(the call with `api_version` omitted) equals the call with "v2". -/
theorem C5_init_amended (u k av : String) (w : Transport) :
    Client.init u k Option.none av =
      Except.error "This library requires a WiFiManager object."
    ∧ Client.init u k (some w) av =
      Except.ok ⟨av, "https://io.adafruit.com/api", u, k, w⟩
    ∧ Client.initDefault u k (some w) = Client.init u k (some w) "v2" :=
  ⟨rfl, rfl, rfl⟩

/-- C6: evaluation of the three HTTP primitives on the example client: each
issues its request (the trace has length one) but the trace contains NO
`closed` event - `response.close()` sits after the `return` statement in
`_post`, `_get` and `_delete` and never executes, so the response is not
released even on the successful exit path. -/
theorem C6_close_eval :
    ((alice._get "p").2.countP (fun e => e.isClose) = 0
      ∧ (alice._get "p").2.length = 1)
    ∧ ((alice._post "p" []).2.countP (fun e => e.isClose) = 0
      ∧ (alice._post "p" []).2.length = 1)
    ∧ ((alice._delete "p").2.countP (fun e => e.isClose) = 0
      ∧ (alice._delete "p").2.length = 1) :=
  ⟨⟨rfl, rfl⟩, ⟨rfl, rfl⟩, ⟨rfl, rfl⟩⟩

/-- C7: for every client and feed key, `receive_data` issues exactly one GET
to the composed path `feeds/{feed}/data/last` with auth-only headers, and
returns exactly the parsed JSON body the transport yields for that request,
unmodified. -/
theorem C7_receive_data (c : Client) (feed : String) :
    (c.receive_data feed).1 =
      c.wifi.respond
        ⟨Method.GET, c._compose_path ("feeds/" ++ feed ++ "/data/last"),
         Option.none, [("X-AIO-KEY", c.key)]⟩
    ∧ (c.receive_data feed).2 =
      [Event.issued
        ⟨Method.GET, c._compose_path ("feeds/" ++ feed ++ "/data/last"),
         Option.none, [("X-AIO-KEY", c.key)]⟩] :=
  ⟨rfl, rfl⟩

/-- C8 counterexample: on a client whose transport answers the string "ok",
`send_data` returns `None` while the underlying `_post` call on the same path
and packet yields the parsed body "ok" - the parsed response is NOT surfaced
to the caller. -/
theorem C8_send_data_counterexample :
    (aliceOk.send_data_defaults "temperature" (PyVal.str "72.5")).1 ≠
      (aliceOk._post
        (aliceOk._compose_path ("feeds/" ++ "temperature" ++ "/data"))
        (Client._create_data (PyVal.str "72.5") PyVal.none PyVal.none
          PyVal.none PyVal.none)).1 := by
  decide

/-- C8 as amended: `send_data` discards the parsed response of its POST and
returns `None` for every input (the Python function body never returns the
result of `self._post`). -/
theorem C8_send_data_amended (c : Client) (feed : String)
    (data lat lon ele created_at : PyVal) :
    (c.send_data feed data lat lon ele created_at).1 = PyVal.none :=
  rfl

/-- C9: the request composed by `delete_data` does not depend on `data_id`:
for every client, feed key and any two data ids, the two calls produce
identical results and traces, and the single DELETE issued goes to the
composed path `feeds/<feed_key>/data<feed_key>`, which mentions the feed key
twice and the data id never. -/
theorem C9_delete_data_independent (c : Client) (feed_key id1 id2 : String) :
    c.delete_data feed_key id1 = c.delete_data feed_key id2
    ∧ (c.delete_data feed_key id1).2 =
      [Event.issued
        ⟨Method.DELETE,
         c._compose_path ("feeds/" ++ feed_key ++ "/data" ++ feed_key),
         Option.none,
         [("X-AIO-KEY", c.key), ("Content-Type", "application/json")]⟩] :=
  ⟨rfl, rfl⟩

/-- C10: the base URL is not configurable: for every constructor input the
stored `url` field is the fixed literal "https://io.adafruit.com/api", and
every composed request path begins with that literal (it is the literal
followed by some rest). -/
theorem C10_base_url (u k av p : String) (w : Transport) :
    (Client.init u k (some w) av).map Client.url =
      Except.ok "https://io.adafruit.com/api"
    ∧ ∃ rest, (Client.init u k (some w) av).map (fun c => c._compose_path p) =
        Except.ok ("https://io.adafruit.com/api" ++ rest) := by
  refine ⟨rfl, ⟨"/" ++ av ++ "/" ++ u ++ "/" ++ p, ?_⟩⟩
  show Except.ok ("https://io.adafruit.com/api" ++ "/" ++ av ++ "/" ++ u ++ "/" ++ p) =
    Except.ok ("https://io.adafruit.com/api" ++ ("/" ++ av ++ "/" ++ u ++ "/" ++ p))
  simp only [String.append_assoc]
